import Mathlib

/-!
Shallow embedding of `gcp_cost_optimizer/gcp_cost_analyzer.py`.

The script shells out to an inventory CLI, parses the captured text as JSON,
and renders a text report.  We model the fetch/parse boundary with `Fetched`
(the four observationally distinct outcomes of `run_gcloud` + `json.loads`),
JSON values with `JValue`, and each analyzer as a function into `Py α :=
Except Unit α`, where `.error ()` marks an uncaught Python exception
(KeyError / TypeError / AttributeError / ValueError) raised by the
corresponding source line.
-/

/-- Parsed JSON values as produced by `json.loads`. -/
inductive JValue where
  | str (s : String)
  | num (n : Int)
  | bool (b : Bool)
  | null
  | arr (xs : List JValue)
  | obj (fields : List (String × JValue))

/-- Field list of a parsed JSON object. -/
abbrev Fields := List (String × JValue)

/-- Python truthiness of a parsed JSON value (`if not x`). -/
def JValue.isTruthy : JValue → Bool
  | .str s => !(s = "")
  | .num n => !(n = 0)
  | .bool b => b
  | .null => false
  | .arr xs => !xs.isEmpty
  | .obj fs => !fs.isEmpty

/-- Association-list lookup of a key among an object's fields. -/
def lookupField : Fields → String → Option JValue
  | [], _ => none
  | (k, v) :: rest, key => if k = key then some v else lookupField rest key

/-- Python `key in d` for a dict. -/
def hasField (fs : Fields) (k : String) : Bool :=
  (lookupField fs k).isSome

/-- Python `v[k]` with a string key: succeeds only on a dict holding the key.
On any other value (`list`, `str`, `int`, ...) Python raises, which we model
as `none`. -/
def getField : JValue → String → Option JValue
  | .obj fs, k => lookupField fs k
  | _, _ => none

/-- Exception-aware computation: `.error ()` is an uncaught Python exception. -/
abbrev Py (α : Type) := Except Unit α

/-- Raise when the optional value is absent (KeyError/TypeError sites). -/
def req {α : Type} : Option α → Py α
  | some a => .ok a
  | none => .error ()

/-- Python `len(v)`: sized for `str`/`list`/`dict`, `TypeError` otherwise. -/
def pyLen : JValue → Py Nat
  | .str s => .ok s.length
  | .arr xs => .ok xs.length
  | .obj fs => .ok fs.length
  | _ => .error ()

/-- Decimal digit test on the character's code point. -/
def isDigitChar (c : Char) : Bool :=
  48 ≤ c.toNat && c.toNat ≤ 57

/-- Whether every character is a decimal digit. -/
def allDigits : List Char → Bool
  | [] => true
  | c :: rest => isDigitChar c && allDigits rest

/-- Value of a digit string read left to right. -/
def digitsNat (cs : List Char) : Nat :=
  cs.foldl (fun n c => n * 10 + (c.toNat - 48)) 0

/-- Python `int(s)` on a string: an optional sign followed by at least one
digit (whitespace/underscore tolerance of CPython is not modelled). -/
def pyIntOfStr (s : String) : Option Int :=
  match s.data with
  | '-' :: rest =>
    if !rest.isEmpty && allDigits rest then some (-(Int.ofNat (digitsNat rest))) else none
  | '+' :: rest =>
    if !rest.isEmpty && allDigits rest then some (Int.ofNat (digitsNat rest)) else none
  | cs =>
    if !cs.isEmpty && allDigits cs then some (Int.ofNat (digitsNat cs)) else none

/-- Python `int(v)`: ints and bools pass through, numeric strings parse,
everything else raises. -/
def pyIntE : JValue → Py Int
  | .num n => .ok n
  | .bool b => .ok (if b then 1 else 0)
  | .str s => req (pyIntOfStr s)
  | _ => .error ()

mutual
/-- Python `repr` of a parsed JSON value (string escaping approximated). -/
def pyRepr : JValue → String
  | .str s => "\x27" ++ s ++ "\x27"
  | .num n => toString n
  | .bool b => if b then "True" else "False"
  | .null => "None"
  | .arr xs => "[" ++ pyReprArr xs ++ "]"
  | .obj fs => "\x7b" ++ pyReprFields fs ++ "\x7d"

/-- Comma-separated `repr` of list elements. -/
def pyReprArr : List JValue → String
  | [] => ""
  | [x] => pyRepr x
  | x :: y :: rest => pyRepr x ++ ", " ++ pyReprArr (y :: rest)

/-- Comma-separated `repr` of dict entries. -/
def pyReprFields : List (String × JValue) → String
  | [] => ""
  | [(k, v)] => "\x27" ++ k ++ "\x27: " ++ pyRepr v
  | (k, v) :: e :: rest => "\x27" ++ k ++ "\x27: " ++ pyRepr v ++ ", " ++ pyReprFields (e :: rest)
end

/-- Python `v == s` for a string literal `s`: true only when `v` is the same
string (values of other types compare unequal without raising). -/
def jeqStr (v : JValue) (s : String) : Bool :=
  match v with
  | .str t => t = s
  | _ => false

/-- Python `str(v)` as used by f-string interpolation. -/
def pyStr : JValue → String
  | .str s => s
  | v => pyRepr v

/-- Whether a character list still holds a slash. -/
def hasSlash : List Char → Bool
  | [] => false
  | c :: rest => c = '/' || hasSlash rest

/-- Characters after the last slash: `s.split('/')[-1]`. -/
def lastSegChars : List Char → List Char
  | [] => []
  | c :: rest =>
    if hasSlash rest then lastSegChars rest
    else if c = '/' then rest else c :: rest

/-- Python `s.split('/')[-1]`. -/
def lastSeg (s : String) : String :=
  String.mk (lastSegChars s.data)

/-- Whether `n` is a prefix of `h` (character lists). -/
def startsWithChars : List Char → List Char → Bool
  | [], _ => true
  | _ :: _, [] => false
  | a :: as, b :: bs => a = b && startsWithChars as bs

/-- Whether `n` occurs contiguously inside `h` (character lists). -/
def hasSubChars : List Char → List Char → Bool
  | n, [] => startsWithChars n []
  | n, h@(_ :: hs) => startsWithChars n h || hasSubChars n hs

/-- Python `needle in hay` on strings. -/
def containsSubstr (needle hay : String) : Bool :=
  hasSubChars needle.data hay.data

/-- ASCII lower-casing of one character (Python `str.lower` restricted to the
ASCII range of the type names it is applied to). -/
def lowerChar (c : Char) : Char :=
  if 65 ≤ c.toNat && c.toNat ≤ 90 then Char.ofNat (c.toNat + 32) else c

/-- ASCII `s.lower()`. -/
def lowerStr (s : String) : String :=
  String.mk (s.data.map lowerChar)

/-- Outcome of `run_gcloud(args)` followed by the caller's truthiness test and
`json.loads`: the command failed (`None`), produced empty text, produced
non-empty text that fails to parse, or produced non-empty text parsing to `v`. -/
inductive Fetched where
  | failure
  | empty
  | malformed
  | ok (v : JValue)

/-- The external listings consumed by one run of the script, in fetch order. -/
structure Env where
  config : Fetched
  instances : Fetched
  buckets : Fetched
  disks : Fetched
  addresses : Fetched
  fwRules : Fetched

/-- Observable result of `main()`: an uncaught exception (with the report text
already written to the file, if it was opened), the graceful authentication
abort, or a fully written report. -/
inductive MainOutcome where
  | crashed (written : Option String)
  | abortedAuthHint
  | reportWritten (content : String)
deriving DecidableEq

/-- Report content when the run completed normally. -/
def reportOf : MainOutcome → Option String
  | .reportWritten r => some r
  | _ => none

/-- Left-to-right effectful map, stopping at the first exception, exactly like
a Python `for`/comprehension over the list. -/
def mapPy {α β : Type} (f : α → Py β) : List α → Py (List β)
  | [] => .ok []
  | a :: rest => do
    let b ← f a
    let bs ← mapPy f rest
    pure (b :: bs)

/-- Concatenation of rendered lines (`report += line` in a loop). -/
def concatLines : List String → String
  | [] => ""
  | l :: rest => l ++ concatLines rest

/-- The `"=" * 50` separator used under every section title. -/
def eq50 : String := String.mk (List.replicate 50 '=')

/-- The `"=" * 41`-style separator under the general-recommendations title. -/
def eq41 : String := String.mk (List.replicate 41 '=')

/-- Field access that must yield a string (the value is subsequently sliced
with `.split`, so any other type raises). -/
def strField (i : JValue) (k : String) : Py String :=
  match getField i k with
  | some (.str s) => .ok s
  | _ => .error ()

/-- `instance['machineType']`, required to be a string by the immediate
`.split('/')` (lines 50, 71, 78 of the source). -/
def machineTypeOf (i : JValue) : Py String :=
  strField i "machineType"

/-- `instance['status']` (line 63): KeyError when absent, any value otherwise. -/
def statusOf (i : JValue) : Py JValue :=
  req (getField i "status")

/-- One pass of the machine-type tally dict: increment the existing entry or
append a fresh one, preserving first-seen order (lines 51-53). -/
def tallyAdd : List (String × Nat) → String → List (String × Nat)
  | [], k => [(k, 1)]
  | (k', c) :: rest, k =>
    if k' = k then (k', c + 1) :: rest else (k', c) :: tallyAdd rest k

/-- The `machine_types` dict built by the counting loop (lines 48-53). -/
def machineTypeTally (mts : List String) : List (String × Nat) :=
  mts.foldl tallyAdd []

/-- Total of the per-type counts in the summary table. -/
def tallySum : List (String × Nat) → Nat
  | [] => 0
  | p :: rest => p.2 + tallySum rest

/-- The rendered `Instance Types Summary` rows (lines 56-57). -/
def summaryLines (tys : List (String × Nat)) : String :=
  concatLines (tys.map (fun p => "  - " ++ p.1 ++ ": " ++ toString p.2 ++ " instances\n"))

/-- One `- name (Zone: ...)` row of the stopped-instance listing (line 67). -/
def stoppedLine (i : JValue) : Py String := do
  let n ← req (getField i "name")
  let z ← strField i "zone"
  pure ("   - " ++ pyStr n ++ " (Zone: " ++ lastSeg z ++ ")\n")

/-- The stopped-instance recommendation block (lines 64-68): empty when no
instance is stopped. -/
def stoppedBlock (stopped : List JValue) : Py String :=
  if stopped.isEmpty then .ok "" else do
    let ls ← mapPy stoppedLine stopped
    pure ("\n1. You have " ++ toString stopped.length ++
      " stopped instances that are still incurring storage costs:\n" ++
      concatLines ls ++
      "   Recommendation: Delete unused instances to avoid storage charges.\n")

/-- The fixed list of "large" machine-type names (lines 72-74). -/
def largeTypes : List String :=
  ["n1-standard-8", "n1-standard-16", "n2-standard-8", "n2-standard-16",
   "e2-standard-8", "e2-standard-16"]

/-- The oversize test applied to the full `machineType` string: Python
`any(large_type in i['machineType'] for large_type in [...])` (line 71). -/
def isLargeSelected (machineType : String) : Bool :=
  largeTypes.any (fun t => containsSubstr t machineType)

/-- One row of the oversized-instance listing (lines 78-79). -/
def largeLine (p : JValue × String) : Py String := do
  let n ← req (getField p.1 "name")
  let z ← strField p.1 "zone"
  pure ("   - " ++ pyStr n ++ " (Type: " ++ lastSeg p.2 ++ ", Zone: " ++ lastSeg z ++ ")\n")

/-- The oversized-instance recommendation block (lines 75-80). -/
def largeBlock (lg : List (JValue × String)) : Py String :=
  if lg.isEmpty then .ok "" else do
    let ls ← mapPy largeLine lg
    pure ("\n2. You have " ++ toString lg.length ++
      " large instances that might be oversized:\n" ++
      concatLines ls ++
      "   Recommendation: Monitor CPU and memory usage and consider downsizing if utilization is low.\n")

/-- Section title and separator of the compute section (lines 41-42). -/
def computeHeaderFull : String :=
  "COMPUTE ENGINE OPTIMIZATION RECOMMENDATIONS:\n" ++ eq50 ++ "\n\n"

/-- The two static advisory paragraphs closing the compute section
(lines 83-89). -/
def computeStaticAdvice : String :=
  "\n3. Sustained Use Discount Opportunities:\n" ++
  "   - Instances running continuously for a month automatically receive sustained use discounts.\n" ++
  "   - Consider converting eligible workloads to committed use contracts for 1-3 year terms to save 20-60%.\n" ++
  "\n4. Preemptible VM Opportunities:\n" ++
  "   - For fault-tolerant, batch processing workloads, consider using preemptible VMs to save up to 80%.\n"

/-- `analyze_compute_instances()` (lines 28-91), applied to the outcome of the
`compute instances list` fetch. -/
def analyze_compute_instances (instances : Fetched) : Py String :=
  match instances with
  | .failure => .ok "No Compute Engine instances found or error retrieving data."
  | .empty => .ok "No Compute Engine instances found or error retrieving data."
  | .malformed => .ok "Error parsing Compute Engine data."
  | .ok v =>
    if v.isTruthy = false then
      .ok (computeHeaderFull ++ "No Compute Engine instances found.\n")
    else
      match v with
      | .arr xs => do
        let mts ← mapPy machineTypeOf xs
        let tys := machineTypeTally (mts.map lastSeg)
        let sts ← mapPy statusOf xs
        let stopped := ((xs.zip sts).filter (fun p => jeqStr p.2 "TERMINATED")).map Prod.fst
        let sb ← stoppedBlock stopped
        let lg := (xs.zip mts).filter (fun p => isLargeSelected p.2)
        let lb ← largeBlock lg
        pure (computeHeaderFull ++ "Instance Types Summary:\n" ++ summaryLines tys ++
          "\nOptimization Opportunities:\n" ++ sb ++ lb ++ computeStaticAdvice)
      | _ => .error ()

/-- The fixed storage-class guidance and lifecycle recommendation emitted for
any truthy bucket fetch (lines 114-119). -/
def storageClassGuidance : String :=
  "   Storage Class Recommendations:\n" ++
  "   - Standard Storage: Use for frequently accessed data (multiple times a month)\n" ++
  "   - Nearline Storage: Use for data accessed less than once a month (20% cheaper)\n" ++
  "   - Coldline Storage: Use for data accessed less than once a quarter (50% cheaper)\n" ++
  "   - Archive Storage: Use for data accessed less than once a year (90% cheaper)\n" ++
  "   Recommendation: Set up Object Lifecycle Management to automatically transition objects to cheaper storage classes.\n"

/-- The Cloud Storage sub-analysis: everything the bucket branch appends after
the `Cloud Storage Optimization:` line (lines 107-121). -/
def bucketSub (buckets : Fetched) : Py String :=
  match buckets with
  | .failure => .ok "No Cloud Storage buckets found or error retrieving data.\n"
  | .empty => .ok "No Cloud Storage buckets found or error retrieving data.\n"
  | .malformed =>
    .ok ("1. You have Cloud Storage buckets, but couldn\x27t parse the data.\n" ++
      storageClassGuidance)
  | .ok v => do
    let n ← pyLen v
    pure ("1. You have " ++ toString n ++ " Cloud Storage buckets.\n" ++
      storageClassGuidance)

/-- Elements iterated by the disk comprehensions must be dicts; any other
element type raises on its first keyed access. -/
def asObj : JValue → Py Fields
  | .obj fs => .ok fs
  | _ => .error ()

/-- `'users' not in d or not d['users']` (line 130). -/
def isUnattached (fs : Fields) : Bool :=
  !hasField fs "users" || !((lookupField fs "users").getD .null).isTruthy

/-- `int(d['sizeGb'])` (line 133). -/
def diskSizeInt (fs : Fields) : Py Int := do
  let v ← req (lookupField fs "sizeGb")
  pyIntE v

/-- `d['type']`, required to be a string by the immediate `.split('/')` or
`.lower()` (lines 135, 140). -/
def typeField (fs : Fields) : Py String :=
  match lookupField fs "type" with
  | some (.str s) => .ok s
  | _ => .error ()

/-- One `- name (Size: ... GB, Type: ...)` row (line 135). -/
def diskLine (fs : Fields) : Py String := do
  let n ← req (lookupField fs "name")
  let sz ← req (lookupField fs "sizeGb")
  let t ← typeField fs
  pure ("   - " ++ pyStr n ++ " (Size: " ++ pyStr sz ++ " GB, Type: " ++ lastSeg t ++ ")\n")

/-- The unattached-disk report block (lines 131-137): empty when every disk is
attached. -/
def unattachedBlock (uds : List Fields) : Py String :=
  if uds.isEmpty then .ok "" else do
    let sizes ← mapPy diskSizeInt uds
    let ls ← mapPy diskLine uds
    pure ("1. You have " ++ toString uds.length ++
      " unattached persistent disks that are incurring costs:\n" ++
      concatLines ls ++
      "   Total unattached disk space: " ++ toString (sizes.foldl (fun a c => a + c) 0) ++ " GB\n" ++
      "   Recommendation: Delete unattached disks or create snapshots before deletion if the data is needed.\n")

/-- The persistent-disk sub-analysis: everything appended after the
`Persistent Disk Optimization:` line (lines 125-147). -/
def diskSub (disks : Fetched) : Py String :=
  match disks with
  | .failure => .ok "No persistent disks found or error retrieving data.\n"
  | .empty => .ok "No persistent disks found or error retrieving data.\n"
  | .malformed => .ok "Error parsing disk data.\n"
  | .ok v =>
    match v with
    | .arr xs => do
      let ds ← mapPy asObj xs
      let ub ← unattachedBlock (ds.filter isUnattached)
      let tys ← mapPy typeField ds
      let ssd := tys.filter (fun t => containsSubstr "ssd" (lowerStr t))
      let sb := if ssd.isEmpty then "" else
        "\n2. You have " ++ toString ssd.length ++ " SSD persistent disks:\n" ++
        "   Recommendation: For non-performance-critical workloads, consider using Standard persistent disks to reduce costs.\n"
      pure (ub ++ sb)
    | .str "" => .ok ""
    | .obj [] => .ok ""
    | _ => .error ()

/-- Section title and separator of the storage section (lines 102-103). -/
def storageHeaderFull : String :=
  "STORAGE OPTIMIZATION RECOMMENDATIONS:\n" ++ eq50 ++ "\n\n"

/-- `analyze_storage()` (lines 93-149), applied to the outcomes of the bucket
and disk fetches. -/
def analyze_storage (buckets disks : Fetched) : Py String := do
  let bp ← bucketSub buckets
  let dp ← diskSub disks
  pure (storageHeaderFull ++ "Cloud Storage Optimization:\n" ++ bp ++
    "\nPersistent Disk Optimization:\n" ++ dp)

/-- One row of the reserved-address listing (lines 173-175); `in_use` is
computed from dict membership and truthiness and never raises on a dict. -/
def addrLine (a : JValue) : Py String :=
  match a with
  | .obj fs => do
    let inUse := hasField fs "users" && ((lookupField fs "users").getD .null).isTruthy
    let st := if inUse then "In use" else "Not in use"
    let ad ← req (lookupField fs "address")
    let nm ← req (lookupField fs "name")
    pure ("   - " ++ pyStr ad ++ " (Name: " ++ pyStr nm ++ ", Status: " ++ st ++ ")\n")
  | _ => .error ()

/-- The external-address sub-analysis: everything appended after the
`External IP Address Optimization:` line (lines 165-180). -/
def addrSub (addresses : Fetched) : Py String :=
  match addresses with
  | .failure => .ok "No external IP addresses found or error retrieving data.\n"
  | .empty => .ok "No external IP addresses found or error retrieving data.\n"
  | .malformed => .ok "Error parsing IP address data.\n"
  | .ok v =>
    if v.isTruthy = false then .ok ""
    else
      match v with
      | .arr xs => do
        let sts ← mapPy statusOf xs
        let static := ((xs.zip sts).filter (fun p => jeqStr p.2 "RESERVED")).map Prod.fst
        if static.isEmpty then pure "" else do
          let ls ← mapPy addrLine static
          pure ("1. You have " ++ toString static.length ++
            " reserved static external IP addresses:\n" ++
            concatLines ls ++
            "   Recommendation: Delete unused static IPs as they incur charges even when not attached to resources.\n")
      | _ => .error ()

/-- One row of the forwarding-rule listing (line 190); `IPAddress` and
`target` default to `'N/A'`, but a present non-string `target` raises on
`.split`. -/
def ruleLine (r : JValue) : Py String :=
  match r with
  | .obj fs => do
    let nm ← req (lookupField fs "name")
    let ip := (lookupField fs "IPAddress").getD (JValue.str "N/A")
    let tgt ← match (lookupField fs "target").getD (JValue.str "N/A") with
      | .str s => Except.ok s
      | _ => Except.error ()
    pure ("   - " ++ pyStr nm ++ " (IP: " ++ pyStr ip ++ ", Target: " ++ lastSeg tgt ++ ")\n")
  | _ => .error ()

/-- The forwarding-rule sub-analysis: everything appended after the
`Load Balancer Optimization:` line (lines 184-195). -/
def rulesSub (fr : Fetched) : Py String :=
  match fr with
  | .failure => .ok "No load balancers found or error retrieving data.\n"
  | .empty => .ok "No load balancers found or error retrieving data.\n"
  | .malformed => .ok "Error parsing forwarding rules data.\n"
  | .ok v =>
    if v.isTruthy = false then .ok ""
    else
      match v with
      | .arr xs => do
        let ls ← mapPy ruleLine xs
        pure ("1. You have " ++ toString xs.length ++
          " load balancer forwarding rules:\n" ++
          concatLines ls ++
          "   Recommendation: Load balancers incur hourly charges. Consider consolidating load balancers where possible.\n")
      | _ => .error ()

/-- Section title and separator of the network section (lines 160-161). -/
def networkHeaderFull : String :=
  "NETWORKING OPTIMIZATION RECOMMENDATIONS:\n" ++ eq50 ++ "\n\n"

/-- `analyze_network()` (lines 151-197), applied to the outcomes of the
address and forwarding-rule fetches. -/
def analyze_network (addresses fr : Fetched) : Py String := do
  let ap ← addrSub addresses
  let rp ← rulesSub fr
  pure (networkHeaderFull ++ "External IP Address Optimization:\n" ++ ap ++
    "\nLoad Balancer Optimization:\n" ++ rp)

/-- Body of the billing section below its title and separator. -/
def billingBody : String :=
  "1. Set up Budget Alerts:\n" ++
  "   - Create budget alerts to notify you when spending approaches predefined thresholds\n" ++
  "   - Use the following command to create a budget alert:\n" ++
  "     gcloud billing budgets create --billing-account=ACCOUNT_ID --display-name=BUDGET_NAME --budget-amount=1000USD --threshold-rules=percent=80\n\n" ++
  "2. Export Billing Data to BigQuery:\n" ++
  "   - Export your billing data to BigQuery for detailed analysis\n" ++
  "   - Create custom dashboards to track spending by project, service, and label\n" ++
  "   - Use Data Studio to visualize your spending patterns\n\n" ++
  "3. Use Labels for Cost Allocation:\n" ++
  "   - Apply consistent labels to all resources for better cost tracking\n" ++
  "   - Example labels: environment (prod, dev, test), team, project, application\n"

/-- `analyze_billing()` (lines 199-219): a fixed advisory text block. -/
def analyze_billing : String :=
  "BILLING OPTIMIZATION RECOMMENDATIONS:\n" ++ eq50 ++ "\n\n" ++ billingBody

/-- Body of the general section below its title and separator. -/
def generalBody : String :=
  "1. Resource Rightsizing:\n" ++
  "   - Regularly review and rightsize your resources based on actual usage patterns\n" ++
  "   - Use GCP\x27s Recommender API to get automatic rightsizing recommendations\n\n" ++
  "2. Committed Use Discounts:\n" ++
  "   - Purchase committed use contracts for steady-state workloads to save up to 57%\n" ++
  "   - Analyze your usage patterns to determine optimal commitment levels\n\n" ++
  "3. Sustained Use Discounts:\n" ++
  "   - GCP automatically applies sustained use discounts for resources used for significant portions of the month\n" ++
  "   - Consolidate workloads to maximize these discounts\n\n" ++
  "4. Preemptible VMs:\n" ++
  "   - Use preemptible VMs for fault-tolerant, batch processing workloads to save up to 80%\n" ++
  "   - Ensure your applications can handle interruptions\n\n" ++
  "5. Storage Optimization:\n" ++
  "   - Use appropriate storage classes based on access frequency\n" ++
  "   - Implement lifecycle policies to automatically transition objects to cheaper storage classes\n" ++
  "   - Delete unnecessary snapshots and unattached persistent disks\n\n" ++
  "6. Networking Optimization:\n" ++
  "   - Avoid using external IPs for internal communication\n" ++
  "   - Use Cloud NAT for outbound traffic instead of assigning external IPs to each instance\n" ++
  "   - Delete unused static external IPs\n\n" ++
  "7. Budgets and Alerts:\n" ++
  "   - Set up budget alerts to notify you when spending approaches predefined thresholds\n" ++
  "   - Use GCP\x27s Cost Explorer to identify cost trends and anomalies\n\n" ++
  "8. Scheduled Resources:\n" ++
  "   - Schedule non-production resources to shut down during off-hours\n" ++
  "   - Use Cloud Scheduler and Cloud Functions to automate resource management\n\n" ++
  "9. Containerization:\n" ++
  "   - Consider using Google Kubernetes Engine (GKE) to optimize resource utilization\n" ++
  "   - Use GKE Autopilot to let Google manage capacity provisioning\n\n" ++
  "10. Billing Export:\n" ++
  "    - Export billing data to BigQuery for detailed analysis\n" ++
  "    - Create custom dashboards to track spending by project, service, and label\n"

/-- `generate_cost_recommendations()` (lines 221-269): the fixed general
advisory block, with its leading newline and 41-character separator. -/
def generate_cost_recommendations : String :=
  "\nGENERAL COST OPTIMIZATION RECOMMENDATIONS:\n" ++
  eq41 ++ "\n\n" ++ generalBody

/-- `get_project_info()` (lines 21-26): `None` on a failed or empty fetch,
the parsed value otherwise; unparseable text raises out of `json.loads`. -/
def get_project_info (config : Fetched) : Py (Option JValue) :=
  match config with
  | .failure => .ok none
  | .empty => .ok none
  | .malformed => .error ()
  | .ok v => .ok (some v)

/-- Python `k in v` for an arbitrary container: dict-key membership, list
membership, or substring test; raises on non-containers. -/
def pyInObj (k : String) (v : JValue) : Py Bool :=
  match v with
  | .obj fs => .ok (hasField fs k)
  | .arr xs => .ok (xs.any (fun x => jeqStr x k))
  | .str s => .ok (containsSubstr k s)
  | _ => .error ()

/-- The optional `Project: ...` preamble line (lines 287-288). -/
def projectLine (info : JValue) : Py String := do
  let b1 ← pyInObj "core" info
  if b1 then do
    let core ← req (getField info "core")
    let b2 ← pyInObj "project" core
    if b2 then do
      let pv ← req (getField core "project")
      pure ("Project: " ++ pyStr pv ++ "\n\n")
    else pure ""
  else pure ""

/-- Report title and separator written first (lines 284-285). -/
def reportTitle (today : String) : String :=
  "GCP COST OPTIMIZATION REPORT - " ++ today ++ "\n" ++ eq50 ++ "\n\n"

/-- `main()` (lines 271-310): fetch project identity, abort with the
authentication hint when it is missing or parses to a falsy value, otherwise
write the preamble and the five sections in order.  A `crashed` outcome
carries the content already written when the exception escaped.  (Named
`runMain` because a bare `main` must be an executable entry point in Lean.) -/
def runMain (today : String) (env : Env) : MainOutcome :=
  match get_project_info env.config with
  | .error _ => .crashed none
  | .ok info =>
    match info with
    | none => .abortedAuthHint
    | some v =>
      if v.isTruthy = false then .abortedAuthHint
      else
        let t0 := reportTitle today
        match projectLine v with
        | .error _ => .crashed (some t0)
        | .ok pl =>
          let t1 := t0 ++ pl
          match analyze_compute_instances env.instances with
          | .error _ => .crashed (some t1)
          | .ok cr =>
            let t2 := t1 ++ cr ++ "\n\n"
            match analyze_storage env.buckets env.disks with
            | .error _ => .crashed (some t2)
            | .ok sr =>
              let t3 := t2 ++ sr ++ "\n\n"
              match analyze_network env.addresses env.fwRules with
              | .error _ => .crashed (some t3)
              | .ok nr =>
                .reportWritten (t3 ++ nr ++ "\n\n" ++ analyze_billing ++ "\n\n" ++
                  generate_cost_recommendations)

/-- In-order occurrence of a list of needles inside a string: each needle
occurs after the end of the previous one. -/
def containsInOrder : List String → String → Prop
  | [], _ => True
  | n :: ns, h => ∃ a b, h = a ++ (n ++ b) ∧ containsInOrder ns b

theorem data_append (a b : String) : (a ++ b).data = a.data ++ b.data := by
  cases a; cases b; rfl

theorem strAppendAssoc (a b c : String) : a ++ b ++ c = a ++ (b ++ c) := by
  cases a; cases b; cases c
  show String.mk _ = String.mk _
  simp [String.append, List.append_assoc]

theorem swcSelfAppend (n t : List Char) : startsWithChars n (n ++ t) = true := by
  induction n with
  | nil => rfl
  | cons a as ih => simp [startsWithChars, ih]

theorem swcExtend (n : List Char) :
    ∀ h t, startsWithChars n h = true → startsWithChars n (h ++ t) = true := by
  induction n with
  | nil => intro h t _; rfl
  | cons a as ih =>
    intro h t hh
    cases h with
    | nil => simp [startsWithChars] at hh
    | cons b bs =>
      simp only [startsWithChars, Bool.and_eq_true] at hh ⊢
      exact ⟨hh.1, ih bs t hh.2⟩

theorem hasSubNil (h : List Char) : hasSubChars [] h = true := by
  induction h with
  | nil => rfl
  | cons c cs ih => simp [hasSubChars, startsWithChars]

theorem hasSubSelfAppend (n t : List Char) : hasSubChars n (n ++ t) = true := by
  cases n with
  | nil => exact hasSubNil t
  | cons a as =>
    simp only [List.cons_append, hasSubChars, Bool.or_eq_true]
    exact Or.inl (swcSelfAppend (a :: as) t)

theorem hasSubAppendRight (n : List Char) (x : List Char) :
    ∀ h, hasSubChars n h = true → hasSubChars n (x ++ h) = true := by
  induction x with
  | nil => intro h hh; simpa using hh
  | cons c cs ih =>
    intro h hh
    simp only [List.cons_append, hasSubChars, Bool.or_eq_true]
    exact Or.inr (ih h hh)

theorem hasSubAppendLeft (n : List Char) :
    ∀ h t, hasSubChars n h = true → hasSubChars n (h ++ t) = true := by
  intro h
  induction h with
  | nil =>
    intro t hh
    cases n with
    | nil => exact hasSubNil t
    | cons a as => simp [hasSubChars, startsWithChars] at hh
  | cons c cs ih =>
    intro t hh
    simp only [hasSubChars, Bool.or_eq_true] at hh
    simp only [List.cons_append, hasSubChars, Bool.or_eq_true]
    cases hh with
    | inl hs => exact Or.inl (swcExtend n (c :: cs) t hs)
    | inr hs => exact Or.inr (ih t hs)

theorem containsAppendRight (n x h : String) (hh : containsSubstr n h = true) :
    containsSubstr n (x ++ h) = true := by
  unfold containsSubstr at hh ⊢
  rw [data_append]
  exact hasSubAppendRight n.data x.data h.data hh

theorem containsAppendLeft (n h t : String) (hh : containsSubstr n h = true) :
    containsSubstr n (h ++ t) = true := by
  unfold containsSubstr at hh ⊢
  rw [data_append]
  exact hasSubAppendLeft n.data h.data t.data hh

theorem containsSelfAppend (n t : String) : containsSubstr n (n ++ t) = true := by
  unfold containsSubstr
  rw [data_append]
  exact hasSubSelfAppend n.data t.data

theorem containsHere (pre n post : String) :
    containsSubstr n (pre ++ (n ++ post)) = true :=
  containsAppendRight n pre (n ++ post) (containsSelfAppend n post)

theorem lastSegCharsSuffix : ∀ cs : List Char, ∃ y, y ++ lastSegChars cs = cs := by
  intro cs
  induction cs with
  | nil => exact ⟨[], rfl⟩
  | cons c rest ih =>
    by_cases hc : hasSlash rest = true
    · obtain ⟨y, hy⟩ := ih
      refine ⟨c :: y, ?_⟩
      simp [lastSegChars, hc, hy]
    · by_cases he : c = '/'
      · exact ⟨[c], by simp [lastSegChars, hc, he]⟩
      · exact ⟨[], by simp [lastSegChars, hc, he]⟩

theorem hasSubSelf (n : List Char) : hasSubChars n n = true := by
  have := hasSubSelfAppend n []
  simpa using this

theorem containsLastSeg (s : String) : containsSubstr (lastSeg s) s = true := by
  show hasSubChars (lastSegChars s.data) s.data = true
  obtain ⟨y, hy⟩ := lastSegCharsSuffix s.data
  have h2 := hasSubAppendRight (lastSegChars s.data) y (lastSegChars s.data)
    (hasSubSelf (lastSegChars s.data))
  rw [hy] at h2
  exact h2

theorem pyBindOk {α β : Type} (a : Py α) (f : α → Py β) (r : β) :
    (a >>= f) = .ok r ↔ ∃ x, a = .ok x ∧ f x = .ok r := by
  cases a with
  | error e => simp [Bind.bind, Except.bind]
  | ok x => simp [Bind.bind, Except.bind]

theorem pyPureEq {α : Type} (x : α) : (pure x : Py α) = .ok x := rfl

theorem mapPyLength {α β : Type} (f : α → Py β) :
    ∀ xs ys, mapPy f xs = .ok ys → ys.length = xs.length := by
  intro xs
  induction xs with
  | nil => intro ys h; simp [mapPy] at h; simp [← h]
  | cons a rest ih =>
    intro ys h
    simp only [mapPy, pyBindOk, pyPureEq] at h
    obtain ⟨b, _, bs, hbs, hy⟩ := h
    cases hy
    simp [ih bs hbs]

theorem mapPyMem {α β : Type} (f : α → Py β) :
    ∀ xs ys, mapPy f xs = .ok ys → ∀ x ∈ xs, ∃ y ∈ ys, f x = .ok y := by
  intro xs
  induction xs with
  | nil => intro ys _ x hx; cases hx
  | cons a rest ih =>
    intro ys h x hx
    simp only [mapPy, pyBindOk, pyPureEq] at h
    obtain ⟨b, hb, bs, hbs, hy⟩ := h
    cases hy
    rcases List.mem_cons.mp hx with rfl | hx'
    · exact ⟨b, List.mem_cons_self _ _, hb⟩
    · obtain ⟨y, hy1, hy2⟩ := ih bs hbs x hx'
      exact ⟨y, List.mem_cons_of_mem _ hy1, hy2⟩

theorem mapPyAllOk {α β : Type} (f : α → Py β) (g : α → β) :
    ∀ xs, (∀ x ∈ xs, f x = .ok (g x)) → mapPy f xs = .ok (xs.map g) := by
  intro xs
  induction xs with
  | nil => intro _; rfl
  | cons a rest ih =>
    intro h
    simp only [mapPy, List.map_cons]
    rw [h a (List.mem_cons_self _ _), ih (fun x hx => h x (List.mem_cons_of_mem _ hx))]
    rfl

theorem concatLinesContains (n : String) :
    ∀ ls l, l ∈ ls → containsSubstr n l = true → containsSubstr n (concatLines ls) = true := by
  intro ls
  induction ls with
  | nil => intro l hl; cases hl
  | cons a rest ih =>
    intro l hl hc
    rcases List.mem_cons.mp hl with rfl | hl'
    · exact containsAppendLeft n l (concatLines rest) hc
    · exact containsAppendRight n a (concatLines rest) (ih l hl' hc)

theorem tallySumAdd : ∀ acc k, tallySum (tallyAdd acc k) = tallySum acc + 1 := by
  intro acc
  induction acc with
  | nil => intro k; rfl
  | cons p rest ih =>
    intro k
    obtain ⟨k', c⟩ := p
    by_cases h : k' = k
    · simp [tallyAdd, h, tallySum]; omega
    · simp [tallyAdd, h, tallySum, ih]; omega

theorem tallySumFold : ∀ (l : List String) (acc : List (String × Nat)),
    tallySum (l.foldl tallyAdd acc) = tallySum acc + l.length := by
  intro l
  induction l with
  | nil => intro acc; simp
  | cons k rest ih =>
    intro acc
    simp only [List.foldl_cons, List.length_cons, ih, tallySumAdd]
    omega

theorem tallySumTally (l : List String) : tallySum (machineTypeTally l) = l.length := by
  unfold machineTypeTally
  rw [tallySumFold]
  simp [tallySum]

theorem zipFilterFstAll {α β : Type} (g : α → β) (q : β → Bool) :
    ∀ xs : List α, (∀ x ∈ xs, q (g x) = true) →
      ((xs.zip (xs.map g)).filter (fun p => q p.2)).map Prod.fst = xs := by
  intro xs
  induction xs with
  | nil => intro _; rfl
  | cons a rest ih =>
    intro h
    simp only [List.map_cons, List.zip_cons_cons, List.filter_cons]
    rw [if_pos (h a (List.mem_cons_self _ _))]
    simp only [List.map_cons]
    rw [ih (fun x hx => h x (List.mem_cons_of_mem _ hx))]

/-- The fully assembled report, exactly as `main` concatenates it. -/
def assembled (today pl cr sr nr : String) : String :=
  reportTitle today ++ pl ++ cr ++ "\n\n" ++ sr ++ "\n\n" ++ nr ++ "\n\n" ++
    analyze_billing ++ "\n\n" ++ generate_cost_recommendations

theorem storageShape (b d : Fetched) (r : String)
    (h : analyze_storage b d = .ok r) :
    ∃ bp dp, bucketSub b = .ok bp ∧ diskSub d = .ok dp ∧
      r = storageHeaderFull ++ "Cloud Storage Optimization:\n" ++ bp ++
        "\nPersistent Disk Optimization:\n" ++ dp := by
  unfold analyze_storage at h
  simp only [pyBindOk, pyPureEq, Except.ok.injEq] at h
  obtain ⟨bp, hbp, dp, hdp, hr⟩ := h
  exact ⟨bp, dp, hbp, hdp, hr.symm⟩

theorem networkShape (a f : Fetched) (r : String)
    (h : analyze_network a f = .ok r) :
    ∃ ap rp, addrSub a = .ok ap ∧ rulesSub f = .ok rp ∧
      r = networkHeaderFull ++ "External IP Address Optimization:\n" ++ ap ++
        "\nLoad Balancer Optimization:\n" ++ rp := by
  unfold analyze_network at h
  simp only [pyBindOk, pyPureEq, Except.ok.injEq] at h
  obtain ⟨ap, hap, rp, hrp, hr⟩ := h
  exact ⟨ap, rp, hap, hrp, hr.symm⟩

theorem computeShapeOk (v : JValue) (r : String)
    (h : analyze_compute_instances (.ok v) = .ok r) :
    ∃ rest, r = computeHeaderFull ++ rest := by
  simp only [analyze_compute_instances] at h
  by_cases ht : v.isTruthy = false
  · rw [if_pos ht] at h
    exact ⟨"No Compute Engine instances found.\n", (Except.ok.inj h).symm⟩
  · rw [if_neg ht] at h
    match v with
    | .arr xs =>
      simp only [pyBindOk, pyPureEq, Except.ok.injEq] at h
      obtain ⟨mts, _, sts, _, sb, _, lb, _, hr⟩ := h
      refine ⟨"Instance Types Summary:\n" ++ summaryLines (machineTypeTally (mts.map lastSeg)) ++
        "\nOptimization Opportunities:\n" ++ sb ++ lb ++ computeStaticAdvice, ?_⟩
      rw [← hr]
      simp [strAppendAssoc]
    | .str s => simp [JValue.isTruthy] at ht; simp [ht] at h
    | .num n => exact absurd h (by simp)
    | .bool bb => exact absurd h (by simp)
    | .null => simp [JValue.isTruthy] at ht
    | .obj fs => exact absurd h (by simp)

theorem mainShape (today : String) (env : Env) (r : String)
    (h : runMain today env = .reportWritten r) :
    ∃ v pl cr sr nr,
      get_project_info env.config = .ok (some v) ∧ v.isTruthy = true ∧
      projectLine v = .ok pl ∧
      analyze_compute_instances env.instances = .ok cr ∧
      analyze_storage env.buckets env.disks = .ok sr ∧
      analyze_network env.addresses env.fwRules = .ok nr ∧
      r = assembled today pl cr sr nr := by
  simp only [runMain] at h
  split at h
  · cases h
  · rename_i info heq1
    split at h
    · cases h
    · rename_i v heq2
      split at h
      · cases h
      · rename_i ht
        split at h
        · cases h
        · rename_i pl hpl
          split at h
          · cases h
          · rename_i cr hcr
            split at h
            · cases h
            · rename_i sr hsr
              split at h
              · cases h
              · rename_i nr hnr
                refine ⟨heq2, pl, cr, sr, nr, heq1, by simpa using ht, hpl, hcr, hsr, hnr, ?_⟩
                exact (MainOutcome.reportWritten.inj h).symm

theorem mainOkTruthy (today : String) (env : Env) (v : JValue)
    (hc : env.config = .ok v) (ht : v.isTruthy = true) :
    (∃ t, runMain today env = .crashed (some t)) ∨
      (∃ r, runMain today env = .reportWritten r) := by
  cases hpl : projectLine v with
  | error e =>
    exact Or.inl ⟨reportTitle today, by simp [runMain, hc, get_project_info, ht, hpl]⟩
  | ok pl =>
    cases hcr : analyze_compute_instances env.instances with
    | error e =>
      exact Or.inl ⟨reportTitle today ++ pl,
        by simp [runMain, hc, get_project_info, ht, hpl, hcr]⟩
    | ok cr =>
      cases hsr : analyze_storage env.buckets env.disks with
      | error e =>
        exact Or.inl ⟨reportTitle today ++ pl ++ cr ++ "\n\n",
          by simp [runMain, hc, get_project_info, ht, hpl, hcr, hsr]⟩
      | ok sr =>
        cases hnr : analyze_network env.addresses env.fwRules with
        | error e =>
          exact Or.inl ⟨reportTitle today ++ pl ++ cr ++ "\n\n" ++ sr ++ "\n\n",
            by simp [runMain, hc, get_project_info, ht, hpl, hcr, hsr, hnr]⟩
        | ok nr =>
          exact Or.inr ⟨assembled today pl cr sr nr,
            by simp [runMain, hc, get_project_info, ht, hpl, hcr, hsr, hnr, assembled]⟩

theorem mainAbortIff (today : String) (env : Env) :
    runMain today env = .abortedAuthHint ↔
      (env.config = .failure ∨ env.config = .empty ∨
        ∃ v, env.config = .ok v ∧ v.isTruthy = false) := by
  cases hc : env.config with
  | failure => simp [runMain, hc, get_project_info]
  | empty => simp [runMain, hc, get_project_info]
  | malformed => simp [runMain, hc, get_project_info]
  | ok v =>
    by_cases ht : v.isTruthy = false
    · simp [runMain, hc, get_project_info, ht]
    · have h2 := mainOkTruthy today env v hc (by simpa using ht)
      rcases h2 with ⟨t, hm⟩ | ⟨r, hm⟩ <;> rw [hm] <;> simp [ht]

theorem mainCrashedNoneIff (today : String) (env : Env) :
    runMain today env = .crashed none ↔ env.config = .malformed := by
  cases hc : env.config with
  | failure => simp [runMain, hc, get_project_info]
  | empty => simp [runMain, hc, get_project_info]
  | malformed => simp [runMain, hc, get_project_info]
  | ok v =>
    by_cases ht : v.isTruthy = false
    · simp [runMain, hc, get_project_info, ht]
    · have h2 := mainOkTruthy today env v hc (by simpa using ht)
      rcases h2 with ⟨t, hm⟩ | ⟨r, hm⟩ <;> rw [hm] <;> simp

theorem containsSelfStr (n : String) : containsSubstr n n = true :=
  hasSubSelf n.data

theorem containsMid (x n y : String) : containsSubstr n (x ++ n ++ y) = true :=
  containsAppendLeft n (x ++ n) y (containsAppendRight n x n (containsSelfStr n))

/-- C5: for every well-formed non-empty compute-instance listing, the sum of
the per-type counts in the machine-type summary table equals the number of
instances in the listing. -/
theorem c5_summary_counts (xs : List JValue) (mts : List String)
    (_hne : xs ≠ []) (h : mapPy machineTypeOf xs = .ok mts) :
    tallySum (machineTypeTally (mts.map lastSeg)) = xs.length := by
  rw [tallySumTally, List.length_map]
  exact mapPyLength machineTypeOf xs mts h

def c5xs : List JValue :=
  [.obj [("machineType", .str "zones/z/machineTypes/n1-standard-1")],
   .obj [("machineType", .str "zones/z/machineTypes/e2-medium")],
   .obj [("machineType", .str "zones/z/machineTypes/n1-standard-1")]]

def c5mts : List String :=
  ["zones/z/machineTypes/n1-standard-1", "zones/z/machineTypes/e2-medium",
   "zones/z/machineTypes/n1-standard-1"]

theorem c5_summary_counts_witness :
    c5xs ≠ [] ∧ mapPy machineTypeOf c5xs = .ok c5mts ∧
      tallySum (machineTypeTally (c5mts.map lastSeg)) = c5xs.length :=
  ⟨by simp [c5xs], rfl, c5_summary_counts c5xs c5mts (by simp [c5xs]) rfl⟩

/-- C8: the compute analyzer turns an empty successfully parsed listing into
the section header plus a single `none found` line, and malformed JSON into
the bare `parse error` line, with no summary table and no recommendation
text. -/
theorem c8_compute_edge_cases :
    analyze_compute_instances (.ok (.arr [])) =
      .ok (computeHeaderFull ++ "No Compute Engine instances found.\n") ∧
    analyze_compute_instances .malformed = .ok "Error parsing Compute Engine data." ∧
    (analyze_compute_instances .malformed).map
      (containsSubstr "Instance Types Summary") = .ok false ∧
    (analyze_compute_instances .malformed).map
      (containsSubstr "Recommendation") = .ok false := by
  exact ⟨rfl, rfl, rfl, rfl⟩

def c1mt : String :=
  "https://www.googleapis.com/compute/v1/projects/p/zones/us-central1-a/machineTypes/n2-standard-80"

def c1Instance : JValue :=
  .obj [("name", .str "vm1"), ("machineType", .str c1mt),
        ("status", .str "RUNNING"), ("zone", .str "zones/us-central1-a")]

set_option maxRecDepth 40000 in
/-- C1 counterexample: an instance whose machineType final segment is
`n2-standard-80` — not one of the six large type names — is nevertheless
selected by the substring test and listed in the oversized-instances
recommendation. -/
theorem c1_counterexample :
    isLargeSelected c1mt = true ∧
    largeTypes.contains (lastSeg c1mt) = false ∧
    (analyze_compute_instances (.ok (.arr [c1Instance]))).map
      (containsSubstr "large instances that might be oversized") = .ok true := by
  refine ⟨by decide, by decide, rfl⟩

/-- C1 amended: an instance is selected as large exactly when one of the six
large type names occurs as a substring of its full machineType string; every
machineType whose final path segment is one of the six names is selected, but
selection does not require the final segment to be in the set. -/
theorem c1_large_selection (mt : String) :
    (lastSeg mt ∈ largeTypes → isLargeSelected mt = true) ∧
    (isLargeSelected mt = true ↔ ∃ t ∈ largeTypes, containsSubstr t mt = true) := by
  constructor
  · intro hmem
    unfold isLargeSelected
    rw [List.any_eq_true]
    exact ⟨lastSeg mt, hmem, containsLastSeg mt⟩
  · unfold isLargeSelected
    rw [List.any_eq_true]

theorem c1_large_selection_witness :
    lastSeg "projects/p/machineTypes/e2-standard-8" ∈ largeTypes ∧
      isLargeSelected "projects/p/machineTypes/e2-standard-8" = true :=
  ⟨by decide, (c1_large_selection "projects/p/machineTypes/e2-standard-8").1 (by decide)⟩

/-- Result of an exception-free string computation, defaulting to "". -/
def pyGetD (x : Py String) : String :=
  match x with
  | .ok s => s
  | .error _ => ""

theorem stoppedLineContainsName (i : JValue) (l : String) (n : String)
    (hn : getField i "name" = some (JValue.str n))
    (hline : stoppedLine i = .ok l) : containsSubstr n l = true := by
  unfold stoppedLine at hline
  rw [hn] at hline
  simp only [req, pyBindOk, pyPureEq, Except.ok.injEq, exists_eq_left', pyStr] at hline
  obtain ⟨z, hz, hleq⟩ := hline
  rw [← hleq]
  have e : ("   - " ++ n ++ " (Zone: " ++ lastSeg z ++ ")\n") =
      "   - " ++ n ++ (" (Zone: " ++ (lastSeg z ++ ")\n")) := by
    simp only [strAppendAssoc]
  rw [e]
  exact containsMid "   - " n _

/-- C6: when every instance of a non-empty listing has status TERMINATED, the
stopped-instance selection keeps the whole listing, and the emitted block
reports a count equal to the listing's length, renders one line per instance,
and mentions every instance's name. -/
theorem c6_stopped_all_terminated (xs : List JValue) (b : String)
    (hne : xs ≠ [])
    (hst : ∀ i ∈ xs, getField i "status" = some (JValue.str "TERMINATED"))
    (hb : stoppedBlock xs = .ok b) :
    mapPy statusOf xs = .ok (xs.map (fun _ => JValue.str "TERMINATED")) ∧
    ((xs.zip (xs.map (fun _ => JValue.str "TERMINATED"))).filter
       (fun p => jeqStr p.2 "TERMINATED")).map Prod.fst = xs ∧
    containsSubstr ("1. You have " ++ toString xs.length ++ " stopped instances") b = true ∧
    (∃ ls, mapPy stoppedLine xs = .ok ls ∧ ls.length = xs.length) ∧
    (∀ i ∈ xs, ∀ n, getField i "name" = some (JValue.str n) →
      containsSubstr n b = true) := by
  have hsts : mapPy statusOf xs = .ok (xs.map (fun _ => JValue.str "TERMINATED")) :=
    mapPyAllOk statusOf (fun _ => JValue.str "TERMINATED") xs
      (fun i hi => by simp [statusOf, hst i hi, req])
  have hsel := zipFilterFstAll (fun _ => JValue.str "TERMINATED")
    (fun v => jeqStr v "TERMINATED") xs (fun x _ => by simp [jeqStr])
  unfold stoppedBlock at hb
  rw [if_neg (by simpa using hne)] at hb
  simp only [pyBindOk, pyPureEq, Except.ok.injEq] at hb
  obtain ⟨ls, hls, hbEq⟩ := hb
  have hlen := mapPyLength stoppedLine xs ls hls
  have e1 : ("\n1. You have " : String) = "\n" ++ "1. You have " := rfl
  have e2 : (" stopped instances that are still incurring storage costs:\n" : String) =
      " stopped instances" ++ " that are still incurring storage costs:\n" := rfl
  have hform : b = "\n" ++ ("1. You have " ++ toString xs.length ++ " stopped instances") ++
      (" that are still incurring storage costs:\n" ++ (concatLines ls ++
        "   Recommendation: Delete unused instances to avoid storage charges.\n")) := by
    rw [← hbEq, e1, e2]
    simp only [strAppendAssoc]
  refine ⟨hsts, hsel, ?_, ⟨ls, hls, hlen⟩, ?_⟩
  · rw [hform]
    exact containsMid _ _ _
  · intro i hi n hn
    obtain ⟨l, hlmem, hline⟩ := mapPyMem stoppedLine xs ls hls i hi
    have hcl := stoppedLineContainsName i l n hn hline
    have hinC := concatLinesContains n ls l hlmem hcl
    rw [hform]
    exact containsAppendRight n _ _ (containsAppendRight n _ _
      (containsAppendLeft n _ _ hinC))

def c6xs : List JValue :=
  [.obj [("name", .str "vm-a"), ("zone", .str "zones/z1"), ("status", .str "TERMINATED")],
   .obj [("name", .str "vm-b"), ("zone", .str "z2"), ("status", .str "TERMINATED")]]

def c6b : String := pyGetD (stoppedBlock c6xs)

theorem c6_stopped_all_terminated_witness :
    c6xs ≠ [] ∧ stoppedBlock c6xs = .ok c6b ∧
      containsSubstr ("1. You have " ++ toString c6xs.length ++ " stopped instances") c6b = true ∧
      containsSubstr "vm-a" c6b = true :=
  ⟨by simp [c6xs], rfl,
   (c6_stopped_all_terminated c6xs c6b (by simp [c6xs])
     (by intro i hi; fin_cases hi <;> rfl) rfl).2.2.1,
   (c6_stopped_all_terminated c6xs c6b (by simp [c6xs])
     (by intro i hi; fin_cases hi <;> rfl) rfl).2.2.2.2
     (JValue.obj [("name", .str "vm-a"), ("zone", .str "zones/z1"), ("status", .str "TERMINATED")])
     (by unfold c6xs; exact List.mem_cons_self _ _) "vm-a" rfl⟩

theorem pyStrStr (s : String) : pyStr (JValue.str s) = s := rfl

theorem diskLineContainsName (fs : Fields) (l : String) (n : String)
    (hn : lookupField fs "name" = some (JValue.str n))
    (hline : diskLine fs = .ok l) : containsSubstr n l = true := by
  unfold diskLine at hline
  rw [hn] at hline
  simp only [req, pyBindOk, pyPureEq, Except.ok.injEq, exists_eq_left', pyStrStr] at hline
  obtain ⟨sz, hsz, t, ht, hleq⟩ := hline
  rw [← hleq]
  have e : ("   - " ++ n ++ " (Size: " ++ pyStr sz ++ " GB, Type: " ++ lastSeg t ++ ")\n") =
      "   - " ++ n ++ (" (Size: " ++ (pyStr sz ++ (" GB, Type: " ++ (lastSeg t ++ ")\n")))) := by
    simp only [strAppendAssoc]
  rw [e]
  exact containsMid "   - " n _

/-- C7: when every disk of a non-empty listing lacks a `users` field or has it
empty, the unattached-disk selection keeps every disk, the emitted block
reports the total as the integer sum of the declared sizes, and every disk's
name appears in the listing. -/
theorem c7_unattached_disks (ds : List Fields) (b : String)
    (hne : ds ≠ [])
    (hu : ∀ fs ∈ ds, isUnattached fs = true)
    (hb : unattachedBlock ds = .ok b) :
    ds.filter isUnattached = ds ∧
    containsSubstr ("1. You have " ++ toString ds.length ++ " unattached persistent disks") b = true ∧
    (∀ ss, mapPy diskSizeInt ds = .ok ss →
      containsSubstr ("Total unattached disk space: " ++
        toString (ss.foldl (fun a c => a + c) 0) ++ " GB") b = true) ∧
    (∀ fs ∈ ds, ∀ n, lookupField fs "name" = some (JValue.str n) →
      containsSubstr n b = true) := by
  have hfil : ds.filter isUnattached = ds := List.filter_eq_self.mpr hu
  unfold unattachedBlock at hb
  rw [if_neg (by simpa using hne)] at hb
  simp only [pyBindOk, pyPureEq, Except.ok.injEq] at hb
  obtain ⟨sizes, hsizes, ls, hls, hbEq⟩ := hb
  have e2 : (" unattached persistent disks that are incurring costs:\n" : String) =
      " unattached persistent disks" ++ " that are incurring costs:\n" := rfl
  have e3 : ("   Total unattached disk space: " : String) =
      "   " ++ "Total unattached disk space: " := rfl
  have e4 : (" GB\n" : String) = " GB" ++ "\n" := rfl
  refine ⟨hfil, ?_, ?_, ?_⟩
  · have hform : b = ("1. You have " ++ toString ds.length ++ " unattached persistent disks") ++
        (" that are incurring costs:\n" ++ (concatLines ls ++ ("   Total unattached disk space: " ++
          (toString (sizes.foldl (fun a c => a + c) 0) ++ (" GB\n" ++
          "   Recommendation: Delete unattached disks or create snapshots before deletion if the data is needed.\n"))))) := by
      rw [← hbEq, e2]
      simp only [strAppendAssoc]
    rw [hform]
    exact containsAppendLeft _ _ _ (containsSelfStr _)
  · intro ss hss
    rw [hss] at hsizes
    have hse : sizes = ss := (Except.ok.inj hsizes).symm
    subst hse
    have hform : b = ("1. You have " ++ toString ds.length ++
        " unattached persistent disks that are incurring costs:\n" ++ concatLines ls ++ "   ") ++
        ("Total unattached disk space: " ++ toString (sizes.foldl (fun a c => a + c) 0) ++ " GB") ++
        ("\n" ++ "   Recommendation: Delete unattached disks or create snapshots before deletion if the data is needed.\n") := by
      rw [← hbEq, e3, e4]
      simp only [strAppendAssoc]
    rw [hform]
    exact containsMid _ _ _
  · intro fs hfs n hn
    obtain ⟨l, hlmem, hline⟩ := mapPyMem diskLine ds ls hls fs hfs
    have hcl := diskLineContainsName fs l n hn hline
    have hinC := concatLinesContains n ls l hlmem hcl
    have hform : b = ("1. You have " ++ toString ds.length ++
        " unattached persistent disks that are incurring costs:\n") ++ (concatLines ls ++
        ("   Total unattached disk space: " ++ (toString (sizes.foldl (fun a c => a + c) 0) ++ (" GB\n" ++
        "   Recommendation: Delete unattached disks or create snapshots before deletion if the data is needed.\n")))) := by
      rw [← hbEq]
      simp only [strAppendAssoc]
    rw [hform]
    exact containsAppendRight n _ _ (containsAppendLeft n _ _ hinC)

def c7ds : List Fields :=
  [[("name", .str "disk-a"), ("sizeGb", .str "100"), ("type", .str "pd-standard")],
   [("name", .str "disk-b"), ("sizeGb", .str "50"),
    ("type", .str "projects/p/diskTypes/pd-ssd"), ("users", .arr [])]]

def c7b : String := pyGetD (unattachedBlock c7ds)

theorem c7_unattached_disks_witness :
    c7ds ≠ [] ∧ unattachedBlock c7ds = .ok c7b ∧
      mapPy diskSizeInt c7ds = .ok [100, 50] ∧
      containsSubstr ("Total unattached disk space: " ++
        toString (([100, 50] : List Int).foldl (fun a c => a + c) 0) ++ " GB") c7b = true ∧
      containsSubstr "disk-b" c7b = true :=
  ⟨by simp [c7ds], by rfl, by rfl,
   (c7_unattached_disks c7ds c7b (by simp [c7ds])
     (by intro fs hfs; fin_cases hfs <;> rfl) (by rfl)).2.2.1 [100, 50] (by rfl),
   (c7_unattached_disks c7ds c7b (by simp [c7ds])
     (by intro fs hfs; fin_cases hfs <;> rfl) (by rfl)).2.2.2
     [("name", .str "disk-b"), ("sizeGb", .str "50"),
      ("type", .str "projects/p/diskTypes/pd-ssd"), ("users", .arr [])]
     (by unfold c7ds; exact List.mem_cons_of_mem _ (List.mem_cons_self _ _)) "disk-b" (by rfl)⟩

theorem strNilAppend (s : String) : "" ++ s = s := by
  cases s; rfl

theorem inOrderNil (h : String) : containsInOrder [] h := trivial

theorem inOrderDropPre (ns : List String) (x y : String)
    (h : containsInOrder ns y) : containsInOrder ns (x ++ y) := by
  cases ns with
  | nil => trivial
  | cons n ns' =>
    obtain ⟨a, b, hy, hrest⟩ := h
    exact ⟨x ++ a, b, by rw [hy, strAppendAssoc], hrest⟩

theorem inOrderHere (n : String) (ns : List String) (y : String)
    (h : containsInOrder ns y) : containsInOrder (n :: ns) (n ++ y) :=
  ⟨"", y, (strNilAppend (n ++ y)).symm, h⟩

theorem cInCr (needle today pl cr sr nr : String)
    (hc : containsSubstr needle cr = true) :
    containsSubstr needle (assembled today pl cr sr nr) = true := by
  unfold assembled
  exact containsAppendLeft _ _ _ (containsAppendLeft _ _ _ (containsAppendLeft _ _ _
    (containsAppendLeft _ _ _ (containsAppendLeft _ _ _ (containsAppendLeft _ _ _
    (containsAppendLeft _ _ _ (containsAppendLeft _ _ _
      (containsAppendRight _ _ _ hc))))))))

theorem cInSr (needle today pl cr sr nr : String)
    (hc : containsSubstr needle sr = true) :
    containsSubstr needle (assembled today pl cr sr nr) = true := by
  unfold assembled
  exact containsAppendLeft _ _ _ (containsAppendLeft _ _ _ (containsAppendLeft _ _ _
    (containsAppendLeft _ _ _ (containsAppendLeft _ _ _ (containsAppendLeft _ _ _
      (containsAppendRight _ _ _ hc))))))

theorem cInNr (needle today pl cr sr nr : String)
    (hc : containsSubstr needle nr = true) :
    containsSubstr needle (assembled today pl cr sr nr) = true := by
  unfold assembled
  exact containsAppendLeft _ _ _ (containsAppendLeft _ _ _ (containsAppendLeft _ _ _
    (containsAppendLeft _ _ _ (containsAppendRight _ _ _ hc))))

def piDemo : JValue := .obj [("core", .obj [("project", .str "demo")])]

def c2env : Env :=
  ⟨.ok piDemo, .failure, .failure, .failure, .failure, .failure⟩

set_option maxRecDepth 10000 in
/-- C2 counterexample: with project identity present and the compute listing
fetch failed, the run still writes a report, but that report does not contain
the compute section header line — so the five section headers are not all
present. -/
theorem c2_counterexample :
    (reportOf (runMain "2025-01-01" c2env)).isSome = true ∧
    (reportOf (runMain "2025-01-01" c2env)).map
      (containsSubstr "COMPUTE ENGINE OPTIMIZATION RECOMMENDATIONS") = some false := by
  constructor
  · decide
  · decide

/-- C2 amended: in a run that writes a report, an analyzer whose listing fetch
failed or returned no text contributes its `not found` line; the storage,
network, billing and general section headers always appear in order, and the
compute header additionally appears whenever the compute fetch returned
parseable data. -/
theorem c2_sections_and_headers (today : String) (env : Env) (r : String)
    (h : runMain today env = .reportWritten r) :
    ((env.instances = .failure ∨ env.instances = .empty) →
      containsSubstr "No Compute Engine instances found or error retrieving data." r = true) ∧
    ((env.buckets = .failure ∨ env.buckets = .empty) →
      containsSubstr "No Cloud Storage buckets found or error retrieving data." r = true) ∧
    ((env.disks = .failure ∨ env.disks = .empty) →
      containsSubstr "No persistent disks found or error retrieving data." r = true) ∧
    ((env.addresses = .failure ∨ env.addresses = .empty) →
      containsSubstr "No external IP addresses found or error retrieving data." r = true) ∧
    ((env.fwRules = .failure ∨ env.fwRules = .empty) →
      containsSubstr "No load balancers found or error retrieving data." r = true) ∧
    containsInOrder ["STORAGE OPTIMIZATION RECOMMENDATIONS:",
      "NETWORKING OPTIMIZATION RECOMMENDATIONS:",
      "BILLING OPTIMIZATION RECOMMENDATIONS:",
      "GENERAL COST OPTIMIZATION RECOMMENDATIONS:"] r ∧
    (∀ v, env.instances = .ok v →
      containsInOrder ["COMPUTE ENGINE OPTIMIZATION RECOMMENDATIONS:",
        "STORAGE OPTIMIZATION RECOMMENDATIONS:",
        "NETWORKING OPTIMIZATION RECOMMENDATIONS:",
        "BILLING OPTIMIZATION RECOMMENDATIONS:",
        "GENERAL COST OPTIMIZATION RECOMMENDATIONS:"] r) := by
  obtain ⟨v, pl, cr, sr, nr, hcfg, htv, hpl, hcr, hsr, hnr, hreq⟩ := mainShape today env r h
  obtain ⟨bp, dp, hbp, hdp, hsrEq⟩ := storageShape _ _ _ hsr
  obtain ⟨ap, rp, hap, hrp, hnrEq⟩ := networkShape _ _ _ hnr
  subst hreq
  refine ⟨?_, ?_, ?_, ?_, ?_, ?_, ?_⟩
  · intro hio
    have hcrv : cr = "No Compute Engine instances found or error retrieving data." := by
      rcases hio with hio | hio <;> rw [hio] at hcr <;> exact (Except.ok.inj hcr).symm
    subst hcrv
    exact cInCr _ _ _ _ _ _ (containsSelfStr _)
  · intro hio
    have hbpv : bp = "No Cloud Storage buckets found or error retrieving data." ++ "\n" := by
      rcases hio with hio | hio <;> rw [hio] at hbp <;> exact (Except.ok.inj hbp).symm
    subst hbpv
    refine cInSr _ _ _ _ _ _ ?_
    rw [hsrEq]
    exact containsAppendLeft _ _ _ (containsAppendLeft _ _ _
      (containsAppendRight _ _ _ (containsSelfAppend _ _)))
  · intro hio
    have hdpv : dp = "No persistent disks found or error retrieving data." ++ "\n" := by
      rcases hio with hio | hio <;> rw [hio] at hdp <;> exact (Except.ok.inj hdp).symm
    subst hdpv
    refine cInSr _ _ _ _ _ _ ?_
    rw [hsrEq]
    exact containsAppendRight _ _ _ (containsSelfAppend _ _)
  · intro hio
    have hapv : ap = "No external IP addresses found or error retrieving data." ++ "\n" := by
      rcases hio with hio | hio <;> rw [hio] at hap <;> exact (Except.ok.inj hap).symm
    subst hapv
    refine cInNr _ _ _ _ _ _ ?_
    rw [hnrEq]
    exact containsAppendLeft _ _ _ (containsAppendLeft _ _ _
      (containsAppendRight _ _ _ (containsSelfAppend _ _)))
  · intro hio
    have hrpv : rp = "No load balancers found or error retrieving data." ++ "\n" := by
      rcases hio with hio | hio <;> rw [hio] at hrp <;> exact (Except.ok.inj hrp).symm
    subst hrpv
    refine cInNr _ _ _ _ _ _ ?_
    rw [hnrEq]
    exact containsAppendRight _ _ _ (containsSelfAppend _ _)
  · have hra : assembled today pl cr sr nr = reportTitle today ++ (pl ++ (cr ++ ("\n\n" ++
        (sr ++ ("\n\n" ++ (nr ++ ("\n\n" ++ (analyze_billing ++ ("\n\n" ++
        generate_cost_recommendations))))))))) := by
      simp only [assembled, strAppendAssoc]
    rw [hra]
    apply inOrderDropPre
    apply inOrderDropPre
    apply inOrderDropPre
    apply inOrderDropPre
    rw [hsrEq,
      show storageHeaderFull = "STORAGE OPTIMIZATION RECOMMENDATIONS:" ++
        ("\n" ++ (eq50 ++ "\n\n")) from rfl]
    simp only [strAppendAssoc]
    apply inOrderHere
    apply inOrderDropPre
    apply inOrderDropPre
    apply inOrderDropPre
    apply inOrderDropPre
    apply inOrderDropPre
    apply inOrderDropPre
    apply inOrderDropPre
    apply inOrderDropPre
    rw [hnrEq,
      show networkHeaderFull = "NETWORKING OPTIMIZATION RECOMMENDATIONS:" ++
        ("\n" ++ (eq50 ++ "\n\n")) from rfl]
    simp only [strAppendAssoc]
    apply inOrderHere
    apply inOrderDropPre
    apply inOrderDropPre
    apply inOrderDropPre
    apply inOrderDropPre
    apply inOrderDropPre
    apply inOrderDropPre
    apply inOrderDropPre
    apply inOrderDropPre
    rw [show analyze_billing = "BILLING OPTIMIZATION RECOMMENDATIONS:" ++
        ("\n" ++ (eq50 ++ ("\n\n" ++ billingBody))) from rfl]
    simp only [strAppendAssoc]
    apply inOrderHere
    apply inOrderDropPre
    apply inOrderDropPre
    apply inOrderDropPre
    apply inOrderDropPre
    apply inOrderDropPre
    rw [show generate_cost_recommendations = "\n" ++
        ("GENERAL COST OPTIMIZATION RECOMMENDATIONS:" ++
          ("\n" ++ (eq41 ++ ("\n\n" ++ generalBody)))) from rfl]
    apply inOrderDropPre
    apply inOrderHere
    exact inOrderNil _
  · intro v' hv
    rw [hv] at hcr
    obtain ⟨crest, hcrEq⟩ := computeShapeOk v' cr hcr
    have hra : assembled today pl cr sr nr = reportTitle today ++ (pl ++ (cr ++ ("\n\n" ++
        (sr ++ ("\n\n" ++ (nr ++ ("\n\n" ++ (analyze_billing ++ ("\n\n" ++
        generate_cost_recommendations))))))))) := by
      simp only [assembled, strAppendAssoc]
    rw [hra]
    apply inOrderDropPre
    apply inOrderDropPre
    rw [hcrEq,
      show computeHeaderFull = "COMPUTE ENGINE OPTIMIZATION RECOMMENDATIONS:" ++
        ("\n" ++ (eq50 ++ "\n\n")) from rfl]
    simp only [strAppendAssoc]
    apply inOrderHere
    apply inOrderDropPre
    apply inOrderDropPre
    apply inOrderDropPre
    apply inOrderDropPre
    apply inOrderDropPre
    rw [hsrEq,
      show storageHeaderFull = "STORAGE OPTIMIZATION RECOMMENDATIONS:" ++
        ("\n" ++ (eq50 ++ "\n\n")) from rfl]
    simp only [strAppendAssoc]
    apply inOrderHere
    apply inOrderDropPre
    apply inOrderDropPre
    apply inOrderDropPre
    apply inOrderDropPre
    apply inOrderDropPre
    apply inOrderDropPre
    apply inOrderDropPre
    apply inOrderDropPre
    rw [hnrEq,
      show networkHeaderFull = "NETWORKING OPTIMIZATION RECOMMENDATIONS:" ++
        ("\n" ++ (eq50 ++ "\n\n")) from rfl]
    simp only [strAppendAssoc]
    apply inOrderHere
    apply inOrderDropPre
    apply inOrderDropPre
    apply inOrderDropPre
    apply inOrderDropPre
    apply inOrderDropPre
    apply inOrderDropPre
    apply inOrderDropPre
    apply inOrderDropPre
    rw [show analyze_billing = "BILLING OPTIMIZATION RECOMMENDATIONS:" ++
        ("\n" ++ (eq50 ++ ("\n\n" ++ billingBody))) from rfl]
    simp only [strAppendAssoc]
    apply inOrderHere
    apply inOrderDropPre
    apply inOrderDropPre
    apply inOrderDropPre
    apply inOrderDropPre
    apply inOrderDropPre
    rw [show generate_cost_recommendations = "\n" ++
        ("GENERAL COST OPTIMIZATION RECOMMENDATIONS:" ++
          ("\n" ++ (eq41 ++ ("\n\n" ++ generalBody)))) from rfl]
    apply inOrderDropPre
    apply inOrderHere
    exact inOrderNil _

def c3env : Env := ⟨.malformed, .failure, .failure, .failure, .failure, .failure⟩

/-- C3 counterexample: a run whose project-identity fetch returns data that is
not valid JSON neither prints the authentication hint nor produces a report:
it crashes out of `json.loads` before the report file is created, so missing
project identity is not the only condition that aborts the run. -/
theorem c3_counterexample : runMain "2025-01-01" c3env = .crashed none := rfl

/-- C3 amended: the graceful authentication abort happens exactly when the
project-identity fetch yields no data or a value that parses falsy; an
unparseable project-identity payload instead crashes before the file is
created; and any run that does write a report writes the complete preamble
plus all five sections. -/
theorem c3_abort_behavior (today : String) (env : Env) :
    ((env.config = .failure ∨ env.config = .empty ∨
        ∃ v, env.config = .ok v ∧ v.isTruthy = false) ↔
      runMain today env = .abortedAuthHint) ∧
    (env.config = .malformed ↔ runMain today env = .crashed none) ∧
    (∀ r, runMain today env = .reportWritten r →
      ∃ pl cr sr nr,
        analyze_compute_instances env.instances = .ok cr ∧
        analyze_storage env.buckets env.disks = .ok sr ∧
        analyze_network env.addresses env.fwRules = .ok nr ∧
        r = assembled today pl cr sr nr) := by
  refine ⟨(mainAbortIff today env).symm, (mainCrashedNoneIff today env).symm, ?_⟩
  intro r hr
  obtain ⟨v, pl, cr, sr, nr, _, _, _, hcr, hsr, hnr, hreq⟩ := mainShape today env r hr
  exact ⟨pl, cr, sr, nr, hcr, hsr, hnr, hreq⟩

def cAuthEnv : Env := ⟨.failure, .failure, .failure, .failure, .failure, .failure⟩

theorem c3_abort_behavior_witness :
    runMain "2025-01-01" cAuthEnv = .abortedAuthHint :=
  ((c3_abort_behavior "2025-01-01" cAuthEnv).1).mp (Or.inl rfl)

def c9env : Env := ⟨.ok (.obj []), .failure, .failure, .failure, .failure, .failure⟩

/-- C9 counterexample: the project-identity fetch succeeds with data (the
non-empty text parsing to an empty object), yet the graceful-abort branch is
taken — so the graceful abort is not taken only when the fetch returns no
data. -/
theorem c9_counterexample :
    c9env.config = .ok (.obj []) ∧ (JValue.obj []).isTruthy = false ∧
      runMain "2025-01-01" c9env = .abortedAuthHint :=
  ⟨rfl, rfl, rfl⟩

/-- C9 amended: unparseable project-identity text crashes the run before any
file is written, and the graceful-abort branch is taken exactly when the
fetch returns no data or its text parses to a falsy value. -/
theorem c9_parse_crash (today : String) (env : Env) :
    (env.config = .malformed → runMain today env = .crashed none) ∧
    (runMain today env = .abortedAuthHint →
      env.config = .failure ∨ env.config = .empty ∨
        ∃ v, env.config = .ok v ∧ v.isTruthy = false) :=
  ⟨fun h => (mainCrashedNoneIff today env).mpr h,
   fun h => (mainAbortIff today env).mp h⟩

def c9menv : Env := ⟨.malformed, .empty, .empty, .empty, .empty, .empty⟩

theorem c9_parse_crash_witness :
    runMain "2025-01-01" c9menv = .crashed none :=
  (c9_parse_crash "2025-01-01" c9menv).1 rfl

set_option maxRecDepth 10000 in
/-- C4 counterexample: on an empty parsed listing both network sub-analyses
emit nothing at all (no `none found` line appears anywhere in the section),
and on unparseable input they emit a parse-error line, not a `none found`
line. -/
theorem c4_counterexample :
    (analyze_network (.ok (.arr [])) (.ok (.arr []))).map
      (containsSubstr "found") = .ok false ∧
    (analyze_network .malformed .malformed).map
      (containsSubstr "found") = .ok false := by
  constructor
  · rfl
  · rfl

/-- C4 amended: each network sub-analysis emits its `none found` line when its
fetch failed or returned no text, a parse-error line on unparseable text, and
nothing on a falsy parsed value; in all those cases the section is still
assembled from both sub-analyses without aborting. -/
theorem c4_network_degrade (a f : Fetched) :
    ((a = .failure ∨ a = .empty) →
      addrSub a = .ok "No external IP addresses found or error retrieving data.\n") ∧
    (a = .malformed → addrSub a = .ok "Error parsing IP address data.\n") ∧
    (∀ v, a = .ok v → v.isTruthy = false → addrSub a = .ok "") ∧
    ((f = .failure ∨ f = .empty) →
      rulesSub f = .ok "No load balancers found or error retrieving data.\n") ∧
    (f = .malformed → rulesSub f = .ok "Error parsing forwarding rules data.\n") ∧
    (∀ v, f = .ok v → v.isTruthy = false → rulesSub f = .ok "") ∧
    (∀ sa sf, addrSub a = .ok sa → rulesSub f = .ok sf →
      analyze_network a f = .ok (networkHeaderFull ++
        "External IP Address Optimization:\n" ++ sa ++
        "\nLoad Balancer Optimization:\n" ++ sf)) := by
  refine ⟨?_, ?_, ?_, ?_, ?_, ?_, ?_⟩
  · rintro (rfl | rfl) <;> rfl
  · rintro rfl; rfl
  · rintro v rfl hv; simp [addrSub, hv]
  · rintro (rfl | rfl) <;> rfl
  · rintro rfl; rfl
  · rintro v rfl hv; simp [rulesSub, hv]
  · intro sa sf hsa hsf
    unfold analyze_network
    rw [hsa, hsf]
    rfl

theorem c4_network_degrade_witness :
    addrSub .failure = .ok "No external IP addresses found or error retrieving data.\n" ∧
    analyze_network .failure .failure = .ok (networkHeaderFull ++
      "External IP Address Optimization:\n" ++
      "No external IP addresses found or error retrieving data.\n" ++
      "\nLoad Balancer Optimization:\n" ++
      "No load balancers found or error retrieving data.\n") :=
  ⟨(c4_network_degrade .failure .failure).1 (Or.inl rfl),
   (c4_network_degrade .failure .failure).2.2.2.2.2.2 _ _
     ((c4_network_degrade .failure .failure).1 (Or.inl rfl))
     ((c4_network_degrade .failure .failure).2.2.2.1 (Or.inl rfl))⟩

/-- C10 counterexample: non-empty bucket text parsing to the number `0` makes
`len(buckets_data)` raise, so the storage analyzer raises instead of emitting
the storage-class guidance — non-empty fetched text alone does not guarantee
the guidance lines. -/
theorem c10_counterexample :
    bucketSub (.ok (.num 0)) = .error () ∧
    analyze_storage (.ok (.num 0)) .failure = .error () :=
  ⟨rfl, rfl⟩

/-- Whether `len(v)` is defined for the parsed value. -/
def hasLen : JValue → Bool
  | .str _ => true
  | .arr _ => true
  | .obj _ => true
  | _ => false

set_option maxRecDepth 10000 in
/-- C10 amended: whenever the bucket fetch yields non-empty text that either
fails to parse or parses to a sized value (array, object or string), any
storage section the run emits contains the four storage-class guidance lines
and the lifecycle recommendation, even for an empty bucket list; on a fetch
with no data the bucket sub-analysis degrades to its `not found` line, which
carries no guidance. -/
theorem c10_bucket_guidance (b d : Fetched) :
    ((b = .malformed ∨ ∃ v, b = .ok v ∧ hasLen v = true) →
      ∀ r, analyze_storage b d = .ok r →
        containsSubstr "   - Standard Storage: Use for frequently accessed data (multiple times a month)\n" r = true ∧
        containsSubstr "   - Nearline Storage: Use for data accessed less than once a month (20% cheaper)\n" r = true ∧
        containsSubstr "   - Coldline Storage: Use for data accessed less than once a quarter (50% cheaper)\n" r = true ∧
        containsSubstr "   - Archive Storage: Use for data accessed less than once a year (90% cheaper)\n" r = true ∧
        containsSubstr "Recommendation: Set up Object Lifecycle Management" r = true) ∧
    ((b = .failure ∨ b = .empty) →
      bucketSub b = .ok "No Cloud Storage buckets found or error retrieving data.\n" ∧
      containsSubstr "Storage Class Recommendations"
        "No Cloud Storage buckets found or error retrieving data.\n" = false) := by
  constructor
  · intro hb r hr
    obtain ⟨bp, dp, hbp, hdp, hrEq⟩ := storageShape b d r hr
    have hbpEq : ∃ x, bp = x ++ storageClassGuidance := by
      rcases hb with rfl | ⟨v, rfl, hv⟩
      · exact ⟨"1. You have Cloud Storage buckets, but couldn\x27t parse the data.\n",
          (Except.ok.inj hbp).symm⟩
      · obtain ⟨n, hn⟩ : ∃ n, pyLen v = .ok n := by
          cases v <;> simp_all [pyLen, hasLen]
        simp only [bucketSub] at hbp
        rw [hn] at hbp
        simp only [pyBindOk, pyPureEq, Except.ok.injEq, exists_eq_left'] at hbp
        exact ⟨"1. You have " ++ toString n ++ " Cloud Storage buckets.\n", hbp.symm⟩
    obtain ⟨x, hx⟩ := hbpEq
    have hemb : ∀ needle : String, containsSubstr needle storageClassGuidance = true →
        containsSubstr needle r = true := by
      intro needle hcg
      rw [hrEq]
      have h1 : containsSubstr needle bp = true := by
        rw [hx]; exact containsAppendRight _ _ _ hcg
      exact containsAppendLeft _ _ _ (containsAppendLeft _ _ _
        (containsAppendRight _ _ _ h1))
    exact ⟨hemb _ (by decide), hemb _ (by decide), hemb _ (by decide),
      hemb _ (by decide), hemb _ (by decide)⟩
  · rintro (rfl | rfl) <;> exact ⟨rfl, by decide⟩

def c10r : String := pyGetD (analyze_storage .malformed .failure)

set_option maxRecDepth 10000 in
theorem c10_bucket_guidance_witness :
    analyze_storage .malformed .failure = .ok c10r ∧
    containsSubstr "   - Nearline Storage: Use for data accessed less than once a month (20% cheaper)\n" c10r = true :=
  ⟨by rfl, ((c10_bucket_guidance .malformed .failure).1 (Or.inl rfl) c10r (by rfl)).2.1⟩

def c2r : String := (reportOf (runMain "2025-01-01" c2env)).getD ""

set_option maxRecDepth 10000 in
theorem c2_sections_and_headers_witness :
    runMain "2025-01-01" c2env = .reportWritten c2r ∧
    containsSubstr "No Compute Engine instances found or error retrieving data." c2r = true :=
  ⟨by rfl,
   (c2_sections_and_headers "2025-01-01" c2env c2r (by rfl)).1 (Or.inl rfl)⟩
